import Mathlib

/-!
# Selina audio service — verification of the emotion-resolution and
  model-lifecycle core

Shallow embedding of the core logic of the repository (src/markers.py,
src/tts.py, src/asr.py, src/server.py) and proofs of the specification
claims about it.

Conventions:
* Python dicts with string keys become association lists (`List (String × α)`)
  kept in the source's declaration order, with `dictGet` mirroring
  `dict.__getitem__` / `dict.get`.
* The external marker pipeline (`detect_atos`, `compose_sems`) is out of
  scope; `analyzeSingle` is therefore parametrised by the detected
  atomic-marker and composed-marker name lists (`ato_names`, `sem_names`),
  exactly the values the wrapper computes at markers.py lines 112-117 before
  the resolution logic runs.
* Heavyweight model construction is external; model handles are represented
  by `Nat` identifiers drawn from a fresh-id counter, and the state records
  per-key construction counts so that "at most one construction" is a
  statement about the embedded state.
* Floating-point probabilities are modelled as rationals; Python's
  `round(x, 3)` becomes exact round-half-to-even decimal rounding on `ℚ`.
-/

/-- Lookup semantics of a Python `dict` over an association list in declaration order:
`dictGet tbl k` is `some v` for the first pair `(k, v)` in `tbl`, else
`none` (i.e. `tbl.get(k)` returning `None` on a miss). -/
def dictGet {α : Type} (tbl : List (String × α)) (k : String) : Option α :=
  match tbl with
  | [] => none
  | p :: rest => if p.1 = k then some p.2 else dictGet rest k

/-- Table `SEM_TO_EMOTION` from src/markers.py lines 36-59, in declaration order. -/
def SEM_TO_EMOTION : List (String × String) :=
  [("SEM_ACTIVE_ENGAGEMENT", "engaged"),
   ("SEM_PASSIVE_ENGAGEMENT", "engaged"),
   ("SEM_POSITIVE_MOMENTUM", "happy"),
   ("SEM_FIRM_PROMISE", "engaged"),
   ("SEM_IMMEDIATE_ACTION", "engaged"),
   ("SEM_POTENTIAL_ESCALATION", "frustrated"),
   ("SEM_REPETITIVE_ESCALATION", "frustrated"),
   ("SEM_CONFLICT_START", "frustrated"),
   ("SEM_FRUSTRATED", "frustrated"),
   ("SEM_STRONG_DISAGREEMENT", "frustrated"),
   ("SEM_REFUSAL", "frustrated"),
   ("SEM_FIRM_WITHDRAWAL", "sad"),
   ("SEM_SOFT_WITHDRAWAL", "sad"),
   ("SEM_HESITANT_UNCERTAINTY", "anxious"),
   ("SEM_CERTAIN_UNCERTAINTY", "uncertain"),
   ("SEM_HESITANT_AGREEMENT", "uncertain"),
   ("SEM_HESITANT_REQUEST", "uncertain"),
   ("SEM_TIME_CONFLICT", "anxious"),
   ("SEM_EMOTIONAL_MIXED", "mixed")]

/-- Table `ATO_TO_EMOTION` from src/markers.py lines 62-70. -/
def ATO_TO_EMOTION : List (String × String) :=
  [("ATO_POSITIVE", "happy"),
   ("ATO_NEGATIVE", "sad"),
   ("ATO_FRUSTRATION", "frustrated"),
   ("ATO_HESITATION", "anxious"),
   ("ATO_ENGAGEMENT", "engaged"),
   ("ATO_WITHDRAWAL", "sad"),
   ("ATO_INTENSIFIER", "intense")]

/-- Avatar directive: the mood/expression pair of src/markers.py lines 73-83. -/
structure Avatar where
  mood : String
  expression : String
deriving DecidableEq, Repr

/-- Table `EMOTION_TO_AVATAR` from src/markers.py lines 73-83. -/
def EMOTION_TO_AVATAR : List (String × Avatar) :=
  [("happy",      ⟨"happy", "smile"⟩),
   ("sad",        ⟨"sad", "frown"⟩),
   ("frustrated", ⟨"angry", "serious"⟩),
   ("anxious",    ⟨"concerned", "worried"⟩),
   ("uncertain",  ⟨"neutral", "thinking"⟩),
   ("engaged",    ⟨"happy", "attentive"⟩),
   ("mixed",      ⟨"neutral", "thoughtful"⟩),
   ("intense",    ⟨"surprised", "alert"⟩),
   ("neutral",    ⟨"neutral", "idle"⟩)]

/-- Table `EMOTION_TO_TTS` from src/markers.py lines 86-96. -/
def EMOTION_TO_TTS : List (String × String) :=
  [("happy",      "Mit fröhlicher, warmer Stimme"),
   ("sad",        "Mit sanfter, einfühlsamer Stimme"),
   ("frustrated", "Mit ruhiger, neutraler Stimme"),
   ("anxious",    "Mit ruhiger, beruhigender Stimme"),
   ("uncertain",  "Mit geduldiger, ermutigender Stimme"),
   ("engaged",    "Mit enthusiastischer, lebhafter Stimme"),
   ("mixed",      "Mit verständnisvoller Stimme"),
   ("intense",    "Mit klarer, bestimmter Stimme"),
   ("neutral",    "")]

/-- The closed set of emotion labels (the keys of the three tables). -/
def EMOTIONS : List String :=
  ["happy", "sad", "frustrated", "anxious", "uncertain", "engaged",
   "mixed", "intense", "neutral"]

/-- The SEM loop of src/markers.py lines 120-124:
`emotion = "neutral"; for sem in sem_names: if sem in SEM_TO_EMOTION:
emotion = SEM_TO_EMOTION[sem]; break`. It walks the *detected* name list
`sem_names` in its own order and returns the table value of the first
detected name that has a table entry. -/
def semLoop (sem_names : List String) : String :=
  match sem_names with
  | [] => "neutral"
  | s :: rest =>
    match dictGet SEM_TO_EMOTION s with
    | some e => e
    | none => semLoop rest

/-- The fixed ATO priority tuple of src/markers.py lines 127-129. -/
def ATO_PRIORITY : List String :=
  ["ATO_POSITIVE", "ATO_NEGATIVE", "ATO_FRUSTRATION", "ATO_WITHDRAWAL",
   "ATO_ENGAGEMENT", "ATO_HESITATION", "ATO_INTENSIFIER"]

/-- The ATO fallback loop of src/markers.py lines 127-132: iterate the
priority tuple, return `ATO_TO_EMOTION[ato]` for the first priority entry
that is among the detected names and has a table entry. -/
def atoLoop (ato_names : List String) (priority : List String) : String :=
  match priority with
  | [] => "neutral"
  | a :: rest =>
    if a ∈ ato_names ∧ (dictGet ATO_TO_EMOTION a).isSome then
      (dictGet ATO_TO_EMOTION a).getD "neutral"
    else atoLoop ato_names rest

/-- Emotion resolution of src/markers.py lines 120-132: SEM loop first; if
the emotion is still `"neutral"` and at least one ATO name was detected,
run the ATO fallback loop. -/
def resolveEmotion (ato_names sem_names : List String) : String :=
  let emotion := semLoop sem_names
  if emotion = "neutral" ∧ ato_names ≠ [] then atoLoop ato_names ATO_PRIORITY
  else emotion

/-- Lookup `EMOTION_TO_AVATAR.get(emotion, EMOTION_TO_AVATAR["neutral"])` of
src/markers.py line 138 (`EMOTION_TO_AVATAR["neutral"]` is the
neutral/idle pair). -/
def avatarFor (emotion : String) : Avatar :=
  (dictGet EMOTION_TO_AVATAR emotion).getD ⟨"neutral", "idle"⟩

/-- Lookup `EMOTION_TO_TTS.get(emotion, "")` of src/markers.py line 139. -/
def ttsFor (emotion : String) : String :=
  (dictGet EMOTION_TO_TTS emotion).getD ""

/-- Result dict of `analyze_single` (src/markers.py lines 134-140). -/
structure AnalysisResult where
  emotion : String
  atos : List String
  sems : List String
  avatar : Avatar
  tts_instruct : String
deriving DecidableEq, Repr

/-- Function `analyze_single` (src/markers.py lines 99-140), parametrised by the
detected ATO and SEM name lists that the external pipeline produces. -/
def analyzeSingle (ato_names sem_names : List String) : AnalysisResult :=
  let emotion := resolveEmotion ato_names sem_names
  { emotion := emotion
    atos := ato_names
    sems := sem_names
    avatar := avatarFor emotion
    tts_instruct := ttsFor emotion }

/-!
## Model Lifecycle Manager (src/tts.py `load_model`, src/asr.py `load_model`)

The F5TTS / WhisperModel constructors are external; a constructed handle is
a `Nat` identifier drawn from a fresh-id counter. The state additionally
counts, per cache key, how many successful constructions happened
(`baseCount`, `deCount` / `constructions`), how often the specialized
German construction path was entered (`specAttempts`, the body of the
`try:` at src/tts.py lines 24-31), and how many inference invocations
occurred (`inferCalls`), so that the spec's "at most one construction",
"without re-attempting the failed path" and "no model acquisition /
inference" become statements about the final state.

Whether the German fine-tune construction succeeds or raises (the
`except Exception` at src/tts.py line 32) is environmental; it is the
`deOk` parameter.
-/

/-- Module state of src/tts.py: the globals `_model` and `_model_de`,
plus instrumentation counters. -/
structure TTSState where
  model : Option Nat
  model_de : Option Nat
  nextId : Nat
  baseCount : Nat
  deCount : Nat
  specAttempts : Nat
  inferCalls : Nat
deriving DecidableEq, Repr

/-- Interpreter start state: both globals are `None`. -/
def initTTS : TTSState :=
  { model := none, model_de := none, nextId := 0, baseCount := 0,
    deCount := 0, specAttempts := 0, inferCalls := 0 }

/-- Function `load_model` of src/tts.py lines 15-45 (sequential semantics).
`deOk = false` means the German construction path raises (src/tts.py
line 32), in which case the code falls back to the base model —
constructing it only when `_model is None` — and aliases `_model_de`
to it. -/
def ttsLoadModel (deOk : Bool) (s : TTSState) (lang : String) :
    Nat × TTSState :=
  if lang = "de" then
    match s.model_de with
    | some h => (h, s)
    | none =>
      if deOk then
        let h := s.nextId
        (h, { s with model_de := some h, nextId := s.nextId + 1,
                     deCount := s.deCount + 1,
                     specAttempts := s.specAttempts + 1 })
      else
        match s.model with
        | some b =>
          (b, { s with model_de := some b,
                       specAttempts := s.specAttempts + 1 })
        | none =>
          let b := s.nextId
          (b, { s with model := some b, model_de := some b,
                       nextId := s.nextId + 1,
                       baseCount := s.baseCount + 1,
                       specAttempts := s.specAttempts + 1 })
  else
    match s.model with
    | some h => (h, s)
    | none =>
      let h := s.nextId
      (h, { s with model := some h, nextId := s.nextId + 1,
                   baseCount := s.baseCount + 1 })

/-- Run a sequence of `load_model` calls (their `lang` arguments) through
the TTS module state. -/
def ttsRunLoads (deOk : Bool) (calls : List String) (s : TTSState) :
    TTSState :=
  calls.foldl (fun st l => (ttsLoadModel deOk st l).2) s

/-- Module state of src/asr.py: the global `_model` plus counters. -/
structure ASRState where
  model : Option Nat
  constructions : Nat
  inferCalls : Nat
deriving DecidableEq, Repr

/-- Interpreter start state for src/asr.py. -/
def initASR : ASRState :=
  { model := none, constructions := 0, inferCalls := 0 }

/-- Function `load_model` of src/asr.py lines 12-23: return early when the global
is already set, otherwise construct the WhisperModel and store it. -/
def asrLoadModel (s : ASRState) : ASRState :=
  match s.model with
  | some _ => s
  | none =>
    { model := some s.constructions, constructions := s.constructions + 1,
      inferCalls := s.inferCalls }

/-!
## Concurrency model for the acquire-or-construct race (claim C2)

Both `load_model` functions follow the same unsynchronized
check-then-construct pattern on a module global (src/asr.py lines 12-22,
src/tts.py lines 40-45). For the race claim we interleave two callers of
that pattern at statement granularity: each caller first reads the cache
(returning the cached handle if present), and otherwise constructs a new
instance and writes it to the cache. A schedule is the list of which
caller steps next; handles are identified by the construction counter, so
`count` is the number of live instances ever constructed.
-/

/-- Progress of one caller through the check-then-construct body. -/
inductive ThreadSt where
  | ready
  | constructing
  | done (h : Nat)
deriving DecidableEq, Repr

/-- Shared + per-thread state of the two-caller race on one cache key. -/
structure RaceState where
  cache : Option Nat
  count : Nat
  t0 : ThreadSt
  t1 : ThreadSt
deriving DecidableEq, Repr

/-- Both callers at the top of `load_model`, key uncached. -/
def initRace : RaceState :=
  { cache := none, count := 0, t0 := .ready, t1 := .ready }

/-- One atomic step of caller 0 (`i = false`) or caller 1 (`i = true`):
a `ready` caller performs the `if _model is not None` check (src/asr.py
line 14), finishing with the cached handle on a hit and otherwise moving
on to construction; a `constructing` caller performs the constructor call
and the assignment to the global (src/asr.py lines 17-22); a finished
caller only stutters. -/
def raceStep (s : RaceState) (i : Bool) : RaceState :=
  if i then
    match s.t1, s.cache with
    | .ready, some h => { s with t1 := .done h }
    | .ready, none => { s with t1 := .constructing }
    | .constructing, _ =>
      { cache := some s.count, count := s.count + 1, t0 := s.t0,
        t1 := .done s.count }
    | .done _, _ => s
  else
    match s.t0, s.cache with
    | .ready, some h => { s with t0 := .done h }
    | .ready, none => { s with t0 := .constructing }
    | .constructing, _ =>
      { cache := some s.count, count := s.count + 1, t0 := .done s.count,
        t1 := s.t1 }
    | .done _, _ => s

/-- Run a schedule (list of caller choices) from the uncached start. -/
def runSched (sched : List Bool) : RaceState :=
  sched.foldl raceStep initRace

/-!
## Transcription (src/asr.py `transcribe`) and synthesis (src/tts.py
`synthesize`), and the HTTP endpoints of src/server.py

The underlying models are external collaborators; their behaviour enters as
oracle functions. The filesystem probe `get_default_ref_audio`
(src/tts.py lines 48-57) is likewise environmental and enters as the
`defaultRef` function from a language code to an optional
(audio path, transcript) pair.
-/

/-- Python `str.strip()` with no argument: remove leading and trailing
whitespace characters. -/
def pyStrip (s : String) : String :=
  String.mk
    (((s.data.dropWhile Char.isWhitespace).reverse.dropWhile
        Char.isWhitespace).reverse)

/-- Round half to even, the rounding mode of Python's built-in `round`,
taken here as exact arithmetic on `ℚ`. -/
def roundHalfEven (q : ℚ) : ℤ :=
  if q - (⌊q⌋ : ℚ) < 1/2 then ⌊q⌋
  else if 1/2 < q - (⌊q⌋ : ℚ) then ⌊q⌋ + 1
  else if ⌊q⌋ % 2 = 0 then ⌊q⌋ else ⌊q⌋ + 1

/-- Python `round(q, 3)` (src/asr.py line 55) on an exact rational. -/
def pyRound3 (q : ℚ) : ℚ :=
  (roundHalfEven (q * 1000) : ℚ) / 1000

/-- What `WhisperModel.transcribe` (external) reports: the recognized
segment texts in order, and the `info` language fields. -/
structure WhisperOut where
  segments : List String
  language : String
  language_probability : ℚ

/-- Result dict of src/asr.py `transcribe` (lines 52-56). -/
structure TranscribeResult where
  text : String
  language : String
  language_probability : ℚ

/-- Function `transcribe` of src/asr.py lines 26-56: ensure the model is loaded,
run the external model (one inference call), join the segment texts with
a single space after stripping each, and round the language probability
to 3 decimal places. -/
def asrTranscribe (whisper : List Nat → Option String → WhisperOut)
    (audio : List Nat) (language : Option String) (s : ASRState) :
    TranscribeResult × ASRState :=
  let s1 := asrLoadModel s
  let out := whisper audio language
  ({ text := String.intercalate " " (out.segments.map pyStrip)
     language := out.language
     language_probability := pyRound3 out.language_probability },
   { s1 with inferCalls := s1.inferCalls + 1 })

/-- Where the reference audio for synthesis comes from: an uploaded byte
string saved to a temp file (src/tts.py lines 86-90), or a preset default
voice file path (src/tts.py lines 92-95). -/
inductive RefSource where
  | uploaded (bytes : List Nat)
  | preset (path : String)
deriving DecidableEq, Repr

/-- External behaviour of a loaded F5-TTS model handle:
`mtranscribe` is `model.transcribe(ref_audio_path, language=...)`
(src/tts.py line 105); `minfer` is `model.infer(...)` followed by the WAV
container write (src/tts.py lines 108-122), producing the response bytes
from (reference, reference text, generated text, speed, nfe_step). -/
structure TTSOracle where
  mtranscribe : RefSource → String → String
  minfer : RefSource → String → String → ℚ → Nat → List Nat

/-- The `ValueError` message of src/tts.py lines 98-101. -/
def ttsMissingRefMsg : String :=
  "No reference audio available. Upload ref_audio or place a default voice file in voices/selina_en.wav"

/-- Steps of src/tts.py lines 103-122, after a reference has been chosen:
auto-transcribe when the reference text is empty, then run inference. -/
def ttsInferStep (oracle : TTSOracle) (ref : RefSource)
    (ref_text language text : String) (speed : ℚ) (nfe_step : Nat)
    (s : TTSState) : Except String (List Nat) × TTSState :=
  let rtext := if ref_text = "" then oracle.mtranscribe ref language
               else ref_text
  (.ok (oracle.minfer ref rtext text speed nfe_step),
   { s with inferCalls := s.inferCalls + 1 })

/-- Function `synthesize` of src/tts.py lines 60-122: load the model for the
language, pick the reference source (uploaded bytes, else the default
asset — which also replaces `ref_text` with the asset's transcript, else
raise `ValueError`), then synthesize. The error case carries the raised
`ValueError` message. -/
def ttsSynthesize (deOk : Bool)
    (defaultRef : String → Option (String × String)) (oracle : TTSOracle)
    (text : String) (ref_audio_bytes : Option (List Nat))
    (ref_text language : String) (speed : ℚ) (nfe_step : Nat)
    (s : TTSState) : Except String (List Nat) × TTSState :=
  let ms := ttsLoadModel deOk s language
  match ref_audio_bytes with
  | some b =>
    ttsInferStep oracle (.uploaded b) ref_text language text speed
      nfe_step ms.2
  | none =>
    match defaultRef language with
    | some pr =>
      ttsInferStep oracle (.preset pr.1) pr.2 language text speed
        nfe_step ms.2
    | none => (.error ttsMissingRefMsg, ms.2)

/-- An `HTTPException(status, detail)` surfaced by src/server.py. -/
structure HTTPErr where
  status : Nat
  detail : String
deriving DecidableEq, Repr

/-- JSON body returned by `POST /transcribe` (src/server.py lines 60-66);
the wall-clock `duration_ms` field is not modelled. -/
structure TranscribeResponse where
  text : String
  language : String
  language_probability : ℚ
  provider : String

/-- Handler `transcribe_endpoint` of src/server.py lines 44-66: reject zero-length
audio with a 400 before calling `asr.transcribe`. -/
def transcribeEndpoint (whisper : List Nat → Option String → WhisperOut)
    (audio : List Nat) (language : Option String) (s : ASRState) :
    Except HTTPErr TranscribeResponse × ASRState :=
  if audio.length = 0 then (.error ⟨400, "Empty audio file"⟩, s)
  else
    let rs := asrTranscribe whisper audio language s
    (.ok { text := rs.1.text
           language := rs.1.language
           language_probability := rs.1.language_probability
           provider := "faster-whisper-large-v3-turbo" },
     rs.2)

/-- Handler `synthesize_endpoint` of src/server.py lines 69-112: reject
empty/whitespace-only text with a 400; normalise a present-but-empty
uploaded reference to "no reference"; call `tts.synthesize`, turning a
raised `ValueError` into a 400 with the error's message. The success case
returns the WAV byte stream (headers not modelled). -/
def synthesizeEndpoint (deOk : Bool)
    (defaultRef : String → Option (String × String)) (oracle : TTSOracle)
    (text ref_text : String) (ref_audio : Option (List Nat))
    (language : String) (speed : ℚ) (nfe_step : Nat) (s : TTSState) :
    Except HTTPErr (List Nat) × TTSState :=
  if pyStrip text = "" then (.error ⟨400, "Empty text"⟩, s)
  else
    let rab : Option (List Nat) :=
      match ref_audio with
      | some b => if b.length = 0 then none else some b
      | none => none
    match ttsSynthesize deOk defaultRef oracle text rab ref_text language
            speed nfe_step s with
    | (.ok bytes, s2) => (.ok bytes, s2)
    | (.error msg, s2) => (.error ⟨400, msg⟩, s2)

/-!
## Helper lemmas
-/

/-- A successful `dictGet` returns an entry of the table. -/
theorem dictGet_mem {α : Type} {tbl : List (String × α)} {k : String}
    {v : α} (h : dictGet tbl k = some v) : (k, v) ∈ tbl := by
  induction tbl with
  | nil => simp [dictGet] at h
  | cons p rest ih =>
    by_cases hpk : p.1 = k
    · rw [dictGet, if_pos hpk] at h
      cases h
      subst hpk
      exact List.mem_cons_self p rest
    · rw [dictGet, if_neg hpk] at h
      exact List.mem_cons_of_mem _ (ih h)

/-- Lookup `dictGet` misses when the key matches no entry. -/
theorem dictGet_eq_none {α : Type} {tbl : List (String × α)} {k : String}
    (h : ∀ p ∈ tbl, p.1 ≠ k) : dictGet tbl k = none := by
  induction tbl with
  | nil => rfl
  | cons p rest ih =>
    rw [dictGet, if_neg (h p (List.mem_cons_self p rest))]
    exact ih fun q hq => h q (List.mem_cons_of_mem p hq)

/-- No value of `SEM_TO_EMOTION` is the sentinel `"neutral"`. -/
theorem sem_value_ne_neutral {s e : String}
    (h : dictGet SEM_TO_EMOTION s = some e) : e ≠ "neutral" := by
  have hm := dictGet_mem h
  have hall : ∀ p ∈ SEM_TO_EMOTION, p.2 ≠ "neutral" := by decide
  exact hall (s, e) hm

/-- The SEM loop skips a prefix of names that have no table entry. -/
theorem semLoop_append {pre rest : List String}
    (h : ∀ x ∈ pre, dictGet SEM_TO_EMOTION x = none) :
    semLoop (pre ++ rest) = semLoop rest := by
  induction pre with
  | nil => rfl
  | cons x xs ih =>
    rw [List.cons_append, semLoop, h x (List.mem_cons_self x xs)]
    exact ih fun y hy => h y (List.mem_cons_of_mem x hy)

/-- When every detected SEM name misses the table, the SEM loop returns
the sentinel. -/
theorem semLoop_eq_neutral {sems : List String}
    (h : ∀ x ∈ sems, dictGet SEM_TO_EMOTION x = none) :
    semLoop sems = "neutral" := by
  induction sems with
  | nil => rfl
  | cons x xs ih =>
    rw [semLoop, h x (List.mem_cons_self x xs)]
    exact ih fun y hy => h y (List.mem_cons_of_mem x hy)

/-- When some detected SEM name has a table entry, the SEM loop does not
return the sentinel. -/
theorem semLoop_ne_neutral {sems : List String}
    (h : ∃ x ∈ sems, (dictGet SEM_TO_EMOTION x).isSome) :
    semLoop sems ≠ "neutral" := by
  induction sems with
  | nil => simp at h
  | cons x xs ih =>
    rw [semLoop]
    rcases h with ⟨y, hy, hsome⟩
    rcases List.mem_cons.mp hy with rfl | hmem
    · rcases Option.isSome_iff_exists.mp hsome with ⟨e, he⟩
      rw [he]
      exact sem_value_ne_neutral he
    · cases hx : dictGet SEM_TO_EMOTION x with
      | some e => exact sem_value_ne_neutral hx
      | none => exact ih ⟨y, hmem, hsome⟩

/-!
## Claims about emotion resolution (C1, C5, C6)
-/

/-- C1 (counterexample): the claim predicts that the composed-marker set
{SEM_POSITIVE_MOMENTUM, SEM_POTENTIAL_ESCALATION} resolves to
`"frustrated"` by table order regardless of detection order, but with the
detected list ordered `[SEM_POSITIVE_MOMENTUM, SEM_POTENTIAL_ESCALATION]`
the code resolves to `"happy"`: the loop at src/markers.py lines 121-124
iterates the detected names, not the table. -/
theorem C1_counterexample :
    (analyzeSingle []
      ["SEM_POSITIVE_MOMENTUM", "SEM_POTENTIAL_ESCALATION"]).emotion
      = "happy" ∧ "happy" ≠ "frustrated" := by
  constructor
  · rfl
  · decide

/-- C1 (amended): resolution is first-match-wins over the *detected*
composed-marker name list in its own order, not over the table: if every
name before `s` in the detected list has no `SEM_TO_EMOTION` entry and
`s` maps to `e`, resolution returns `e` (for any atomic markers). Which
of several table-mapped detected names wins is decided by detection-list
order, so `{SEM_POSITIVE_MOMENTUM, SEM_POTENTIAL_ESCALATION}` yields
`"frustrated"` only when `SEM_POTENTIAL_ESCALATION` comes first in the
detected list. -/
theorem C1_first_detected_match_wins
    (pre post ato_names : List String) (s e : String)
    (hpre : ∀ x ∈ pre, dictGet SEM_TO_EMOTION x = none)
    (hs : dictGet SEM_TO_EMOTION s = some e) :
    (analyzeSingle ato_names (pre ++ s :: post)).emotion = e := by
  have hloop : semLoop (pre ++ s :: post) = e := by
    rw [semLoop_append hpre, semLoop, hs]
  have hne : e ≠ "neutral" := sem_value_ne_neutral hs
  show resolveEmotion ato_names (pre ++ s :: post) = e
  rw [resolveEmotion]
  simp only [hloop, hne, false_and, if_neg, not_false_eq_true]

/-- C1 (witness): with `SEM_POTENTIAL_ESCALATION` first in the detected
list, resolution returns `"frustrated"`. -/
theorem C1_first_detected_match_wins_witness :
    (analyzeSingle []
      ["SEM_POTENTIAL_ESCALATION", "SEM_POSITIVE_MOMENTUM"]).emotion
      = "frustrated" :=
  C1_first_detected_match_wins [] ["SEM_POSITIVE_MOMENTUM"] []
    "SEM_POTENTIAL_ESCALATION" "frustrated" (by simp) (by decide)

/-- C5: the atomic-marker fallback runs exactly when no composed marker
matched the table. If some detected SEM name has a table entry, the
result is the SEM loop's verdict and the fallback is untouched; if none
has, the result is `"neutral"` for an empty atomic list and the verdict
of the fixed ATO priority loop otherwise. -/
theorem C5_atomic_fallback_on_sem_silence :
    (∀ ato_names sems, (∃ x ∈ sems, (dictGet SEM_TO_EMOTION x).isSome) →
       (analyzeSingle ato_names sems).emotion = semLoop sems) ∧
    (∀ ato_names sems, (∀ x ∈ sems, dictGet SEM_TO_EMOTION x = none) →
       (analyzeSingle ato_names sems).emotion =
         if ato_names = [] then "neutral"
         else atoLoop ato_names ATO_PRIORITY) := by
  constructor
  · intro ato_names sems h
    show resolveEmotion ato_names sems = semLoop sems
    rw [resolveEmotion]
    simp only [semLoop_ne_neutral h, false_and, if_neg, not_false_eq_true]
  · intro ato_names sems h
    show resolveEmotion ato_names sems =
      if ato_names = [] then "neutral" else atoLoop ato_names ATO_PRIORITY
    rw [resolveEmotion]
    simp only [semLoop_eq_neutral h, true_and]
    by_cases ha : ato_names = []
    · simp [ha]
    · simp [ha]

/-- C5 (witness): the two literal scenarios of the claim — composed `{}`
with atomic `{ATO_FRUSTRATION}` resolves to `"frustrated"`, and composed
`{}` with atomic `{}` resolves to `"neutral"`. -/
theorem C5_atomic_fallback_on_sem_silence_witness :
    (analyzeSingle ["ATO_FRUSTRATION"] []).emotion = "frustrated" ∧
    (analyzeSingle [] []).emotion = "neutral" := by
  constructor
  · rw [C5_atomic_fallback_on_sem_silence.2 ["ATO_FRUSTRATION"] []
        (by simp)]
    decide
  · rw [C5_atomic_fallback_on_sem_silence.2 [] [] (by simp)]
    decide

/-- C6: the avatar-directive and voice-instruction lookups are total —
every label of the closed emotion set has an entry in both tables, and
any string outside the closed set degrades to the `"neutral"` directive
(mood `neutral`, expression `idle`) and the empty instruction instead of
failing. -/
theorem C6_lookup_totality :
    (∀ e ∈ EMOTIONS, (dictGet EMOTION_TO_AVATAR e).isSome ∧
       (dictGet EMOTION_TO_TTS e).isSome) ∧
    (∀ s, s ∉ EMOTIONS →
       avatarFor s = ⟨"neutral", "idle"⟩ ∧ ttsFor s = "") := by
  constructor
  · decide
  · intro s hs
    have hkeysA : ∀ p ∈ EMOTION_TO_AVATAR, p.1 ∈ EMOTIONS := by decide
    have hkeysT : ∀ p ∈ EMOTION_TO_TTS, p.1 ∈ EMOTIONS := by decide
    have hA : dictGet EMOTION_TO_AVATAR s = none :=
      dictGet_eq_none fun p hp hps => hs (hps ▸ hkeysA p hp)
    have hT : dictGet EMOTION_TO_TTS s = none :=
      dictGet_eq_none fun p hp hps => hs (hps ▸ hkeysT p hp)
    exact ⟨by rw [avatarFor, hA]; rfl, by rw [ttsFor, hT]; rfl⟩

/-- C6 (witness): the label `"happy"` is covered by both tables, and the
out-of-set label `"ecstatic"` degrades to the neutral directive and the
empty instruction. -/
theorem C6_lookup_totality_witness :
    ((dictGet EMOTION_TO_AVATAR "happy").isSome ∧
      (dictGet EMOTION_TO_TTS "happy").isSome) ∧
    (avatarFor "ecstatic" = ⟨"neutral", "idle"⟩ ∧ ttsFor "ecstatic" = "") :=
  ⟨C6_lookup_totality.1 "happy" (by decide),
   C6_lookup_totality.2 "ecstatic" (by decide)⟩

/-!
## Claims about the model lifecycle (C2, C3, C4)
-/

/-- Weight 1 while a caller can still reach its construction step, 0 once done. -/
def pendingWeight (t : ThreadSt) : Nat :=
  match t with
  | .done _ => 0
  | _ => 1

/-- Safety invariant of the two-caller race: the construction count plus
the callers that might still construct never exceeds 2, and every handle
held by a finished caller or sitting in the cache is a really-constructed
instance (its id is below the construction counter). -/
def RaceInv (s : RaceState) : Prop :=
  s.count + pendingWeight s.t0 + pendingWeight s.t1 ≤ 2 ∧
  (∀ h, s.t0 = .done h → h < s.count) ∧
  (∀ h, s.t1 = .done h → h < s.count) ∧
  (∀ h, s.cache = some h → h < s.count)

/-- Every race step preserves the safety invariant. -/
theorem raceInv_step (s : RaceState) (i : Bool) (hs : RaceInv s) :
    RaceInv (raceStep s i) := by
  obtain ⟨hw, h0, h1, hc⟩ := hs
  cases i
  · cases ht : s.t0 with
    | ready =>
      cases hcache : s.cache with
      | some h =>
        have hstep : raceStep s false =
            { s with t0 := .done h } := by
          simp [raceStep, ht, hcache]
        rw [hstep]
        refine ⟨?_, ?_, h1, hc⟩
        · rw [ht] at hw
          simp only [pendingWeight] at hw ⊢
          omega
        · intro h2 hh2
          cases hh2
          exact hc h hcache
      | none =>
        have hstep : raceStep s false =
            { s with t0 := .constructing } := by
          simp [raceStep, ht, hcache]
        rw [hstep]
        refine ⟨?_, ?_, h1, hc⟩
        · rw [ht] at hw
          simp only [pendingWeight] at hw ⊢
          omega
        · intro h2 hh2
          cases hh2
    | constructing =>
      have hstep : raceStep s false =
          { cache := some s.count, count := s.count + 1,
            t0 := .done s.count, t1 := s.t1 } := by
        simp [raceStep, ht]
      rw [hstep]
      refine ⟨?_, ?_, ?_, ?_⟩
      · rw [ht] at hw
        dsimp only
        simp only [pendingWeight] at hw ⊢
        omega
      · intro h2 hh2
        cases hh2
        dsimp only
        omega
      · intro h2 hh2
        have := h1 h2 hh2
        dsimp only
        omega
      · intro h2 hh2
        cases hh2
        dsimp only
        omega
    | done h =>
      have hstep : raceStep s false = s := by
        simp [raceStep, ht]
      rw [hstep]
      exact ⟨hw, h0, h1, hc⟩
  · cases ht : s.t1 with
    | ready =>
      cases hcache : s.cache with
      | some h =>
        have hstep : raceStep s true =
            { s with t1 := .done h } := by
          simp [raceStep, ht, hcache]
        rw [hstep]
        refine ⟨?_, h0, ?_, hc⟩
        · rw [ht] at hw
          simp only [pendingWeight] at hw ⊢
          omega
        · intro h2 hh2
          cases hh2
          exact hc h hcache
      | none =>
        have hstep : raceStep s true =
            { s with t1 := .constructing } := by
          simp [raceStep, ht, hcache]
        rw [hstep]
        refine ⟨?_, h0, ?_, hc⟩
        · rw [ht] at hw
          simp only [pendingWeight] at hw ⊢
          omega
        · intro h2 hh2
          cases hh2
    | constructing =>
      have hstep : raceStep s true =
          { cache := some s.count, count := s.count + 1,
            t0 := s.t0, t1 := .done s.count } := by
        simp [raceStep, ht]
      rw [hstep]
      refine ⟨?_, ?_, ?_, ?_⟩
      · rw [ht] at hw
        dsimp only
        simp only [pendingWeight] at hw ⊢
        omega
      · intro h2 hh2
        have := h0 h2 hh2
        dsimp only
        omega
      · intro h2 hh2
        cases hh2
        dsimp only
        omega
      · intro h2 hh2
        cases hh2
        dsimp only
        omega
    | done h =>
      have hstep : raceStep s true = s := by
        simp [raceStep, ht]
      rw [hstep]
      exact ⟨hw, h0, h1, hc⟩

/-- The safety invariant holds after any schedule from the uncached start. -/
theorem raceInv_runSched (sched : List Bool) : RaceInv (runSched sched) := by
  have hgen : ∀ (l : List Bool) (s : RaceState), RaceInv s →
      RaceInv (l.foldl raceStep s) := by
    intro l
    induction l with
    | nil => intro s hs; exact hs
    | cons i rest ih =>
      intro s hs
      exact ih (raceStep s i) (raceInv_step s i hs)
  refine hgen sched initRace ⟨by decide, ?_, ?_, ?_⟩ <;>
    · intro h hh
      cases hh

/-- C2 (counterexample): the claim says no interleaving of two concurrent
first-use `load_model` calls for the same key constructs two instances;
but the unsynchronized check-then-construct (src/asr.py lines 12-23,
src/tts.py lines 40-45) admits the interleaving check₀, check₁,
construct₀, construct₁, after which two instances have been constructed
and the callers hold two different handles. -/
theorem C2_counterexample :
    runSched [false, true, false, true] =
      { cache := some 1, count := 2, t0 := .done 0, t1 := .done 1 } ∧
    (0 : Nat) ≠ 1 := by
  constructor
  · decide
  · decide

/-- C2 (amended): under two concurrent uncached `load_model` calls for
one key, every interleaving constructs at most two instances, every
handle a finished caller holds is a really-constructed instance (so both
callers always receive a usable handle), and when the two calls do not
interleave (one runs to completion first) exactly one construction
occurs and both callers share it; but an interleaving in which both
callers pass the cache check before either constructs performs two
constructions. -/
theorem C2_race_construction_bounds (sched : List Bool) :
    (runSched sched).count ≤ 2 ∧
    (∀ h, (runSched sched).t0 = .done h → h < (runSched sched).count) ∧
    (∀ h, (runSched sched).t1 = .done h → h < (runSched sched).count) ∧
    runSched [false, false, true, true] =
      { cache := some 0, count := 1, t0 := .done 0, t1 := .done 0 } := by
  obtain ⟨hw, h0, h1, _⟩ := raceInv_runSched sched
  refine ⟨?_, h0, h1, by decide⟩
  omega

/-- C2 (witness): on the racy interleaving, the bounds hold — at most two
constructions, and caller 0's handle (id 0) is a constructed instance. -/
theorem C2_race_construction_bounds_witness :
    (runSched [false, true, false, true]).count ≤ 2 ∧
    0 < (runSched [false, true, false, true]).count :=
  ⟨(C2_race_construction_bounds [false, true, false, true]).1,
   (C2_race_construction_bounds [false, true, false, true]).2.1 0
     (by decide)⟩

/-- After a `load_model` call for the German variant the `_model_de`
global holds exactly the returned handle. -/
theorem ttsLoadModel_de_cached (deOk : Bool) (s : TTSState) :
    ((ttsLoadModel deOk s "de").2).model_de =
      some (ttsLoadModel deOk s "de").1 := by
  cases hde : s.model_de with
  | some h => simp [ttsLoadModel, hde]
  | none =>
    cases deOk with
    | true => simp [ttsLoadModel, hde]
    | false =>
      cases hm : s.model with
      | some b => simp [ttsLoadModel, hde, hm]
      | none => simp [ttsLoadModel, hde, hm]

/-- After a `load_model` call for a non-`"de"` language the `_model`
global holds exactly the returned handle. -/
theorem ttsLoadModel_base_cached (deOk : Bool) (s : TTSState)
    (lang : String) (hl : lang ≠ "de") :
    ((ttsLoadModel deOk s lang).2).model =
      some (ttsLoadModel deOk s lang).1 := by
  cases hm : s.model with
  | some h => simp [ttsLoadModel, hl, hm]
  | none => simp [ttsLoadModel, hl, hm]

/-- A `load_model` call for the German variant with `_model_de` already
set returns the cached handle and leaves the state untouched. -/
theorem ttsLoadModel_hit_de (deOk : Bool) (s : TTSState) (h : Nat)
    (hde : s.model_de = some h) : ttsLoadModel deOk s "de" = (h, s) := by
  simp [ttsLoadModel, hde]

/-- A `load_model` call for a non-`"de"` language with `_model` already
set returns the cached handle and leaves the state untouched. -/
theorem ttsLoadModel_hit_base (deOk : Bool) (s : TTSState) (lang : String)
    (h : Nat) (hl : lang ≠ "de") (hm : s.model = some h) :
    ttsLoadModel deOk s lang = (h, s) := by
  simp [ttsLoadModel, hl, hm]

/-- Construction-count invariant of the TTS module state: a key whose
global is still unset has never been constructed, and each key has been
constructed at most once. -/
def TTSConstrInv (s : TTSState) : Prop :=
  (s.model = none → s.baseCount = 0) ∧ s.baseCount ≤ 1 ∧
  (s.model_de = none → s.deCount = 0) ∧ s.deCount ≤ 1

/-- Every `load_model` call preserves the construction-count invariant. -/
theorem ttsLoadModel_inv (deOk : Bool) (s : TTSState) (lang : String)
    (hs : TTSConstrInv s) : TTSConstrInv ((ttsLoadModel deOk s lang).2) := by
  obtain ⟨hb0, hb1, hd0, hd1⟩ := hs
  by_cases hl : lang = "de"
  · subst hl
    cases hde : s.model_de with
    | some h =>
      have hstep : (ttsLoadModel deOk s "de").2 = s := by
        simp [ttsLoadModel, hde]
      rw [hstep]
      exact ⟨hb0, hb1, hd0, hd1⟩
    | none =>
      cases deOk with
      | true =>
        have hstep : (ttsLoadModel true s "de").2 =
            { s with model_de := some s.nextId, nextId := s.nextId + 1,
                     deCount := s.deCount + 1,
                     specAttempts := s.specAttempts + 1 } := by
          simp [ttsLoadModel, hde]
        rw [hstep]
        have hdc := hd0 hde
        refine ⟨hb0, hb1, fun hc => Option.noConfusion hc, ?_⟩
        dsimp only
        omega
      | false =>
        cases hm : s.model with
        | some b =>
          have hstep : (ttsLoadModel false s "de").2 =
              { s with model_de := some b,
                       specAttempts := s.specAttempts + 1 } := by
            simp [ttsLoadModel, hde, hm]
          rw [hstep]
          exact ⟨hb0, hb1, fun hc => Option.noConfusion hc, hd1⟩
        | none =>
          have hstep : (ttsLoadModel false s "de").2 =
              { s with model := some s.nextId, model_de := some s.nextId,
                       nextId := s.nextId + 1,
                       baseCount := s.baseCount + 1,
                       specAttempts := s.specAttempts + 1 } := by
            simp [ttsLoadModel, hde, hm]
          rw [hstep]
          have hbc := hb0 hm
          have hdc := hd0 hde
          refine ⟨fun hc => Option.noConfusion hc, ?_,
            fun hc => Option.noConfusion hc, hd1⟩
          dsimp only
          omega
  · cases hm : s.model with
    | some h =>
      have hstep : (ttsLoadModel deOk s lang).2 = s := by
        simp [ttsLoadModel, hl, hm]
      rw [hstep]
      exact ⟨hb0, hb1, hd0, hd1⟩
    | none =>
      have hstep : (ttsLoadModel deOk s lang).2 =
          { s with model := some s.nextId, nextId := s.nextId + 1,
                   baseCount := s.baseCount + 1 } := by
        simp [ttsLoadModel, hl, hm]
      rw [hstep]
      have hbc := hb0 hm
      refine ⟨fun hc => Option.noConfusion hc, ?_, hd0, hd1⟩
      dsimp only
      omega

/-- The construction-count invariant holds after any call sequence from
the interpreter start state. -/
theorem ttsRunLoads_inv (deOk : Bool) (calls : List String) :
    TTSConstrInv (ttsRunLoads deOk calls initTTS) := by
  have hgen : ∀ (l : List String) (s : TTSState), TTSConstrInv s →
      TTSConstrInv (l.foldl (fun st lg => (ttsLoadModel deOk st lg).2) s) := by
    intro l
    induction l with
    | nil => intro s hs; exact hs
    | cons c rest ih =>
      intro s hs
      exact ih _ (ttsLoadModel_inv deOk s c hs)
  exact hgen calls initTTS ⟨fun _ => rfl, by decide, fun _ => rfl, by decide⟩

/-- C3: acquisition is idempotent and caching is permanent — a repeated
`load_model` call with the same key returns the cached handle and changes
nothing (so no further construction); over any call sequence from process
start each key is constructed at most once; and a cached handle is never
replaced by a later call of either key. This covers both the TTS manager
(src/tts.py) and the ASR manager (src/asr.py). -/
theorem C3_idempotent_cached_acquire :
    (∀ deOk (s : TTSState) lang,
       ttsLoadModel deOk (ttsLoadModel deOk s lang).2 lang =
         ttsLoadModel deOk s lang) ∧
    (∀ s : ASRState, asrLoadModel (asrLoadModel s) = asrLoadModel s) ∧
    (∀ deOk calls,
       (ttsRunLoads deOk calls initTTS).baseCount ≤ 1 ∧
       (ttsRunLoads deOk calls initTTS).deCount ≤ 1) ∧
    (∀ n : Nat, ((asrLoadModel)^[n] initASR).constructions ≤ 1) ∧
    (∀ deOk (s : TTSState) lang h, s.model = some h →
       ((ttsLoadModel deOk s lang).2).model = some h) ∧
    (∀ deOk (s : TTSState) lang h, s.model_de = some h →
       ((ttsLoadModel deOk s lang).2).model_de = some h) := by
  refine ⟨?_, ?_, ?_, ?_, ?_, ?_⟩
  · intro deOk s lang
    by_cases hl : lang = "de"
    · subst hl
      exact ttsLoadModel_hit_de deOk (ttsLoadModel deOk s "de").2
        (ttsLoadModel deOk s "de").1 (ttsLoadModel_de_cached deOk s)
    · exact ttsLoadModel_hit_base deOk (ttsLoadModel deOk s lang).2 lang
        (ttsLoadModel deOk s lang).1 hl
        (ttsLoadModel_base_cached deOk s lang hl)
  · intro s
    cases hm : s.model with
    | some h =>
      have hstep : asrLoadModel s = s := by simp [asrLoadModel, hm]
      rw [hstep, hstep]
    | none =>
      have hstep : asrLoadModel s =
          { model := some s.constructions,
            constructions := s.constructions + 1,
            inferCalls := s.inferCalls } := by simp [asrLoadModel, hm]
      rw [hstep]
      simp [asrLoadModel]
  · intro deOk calls
    obtain ⟨_, hb, _, hd⟩ := ttsRunLoads_inv deOk calls
    exact ⟨hb, hd⟩
  · have hinv : ∀ n : Nat,
        ((asrLoadModel)^[n] initASR).constructions ≤ 1 ∧
        (((asrLoadModel)^[n] initASR).model = none →
          ((asrLoadModel)^[n] initASR).constructions = 0) := by
      intro n
      induction n with
      | zero => exact ⟨by decide, fun _ => rfl⟩
      | succ k ih =>
        obtain ⟨ih1, ih2⟩ := ih
        rw [Function.iterate_succ_apply']
        cases hm : ((asrLoadModel)^[k] initASR).model with
        | some h =>
          have hstep : asrLoadModel ((asrLoadModel)^[k] initASR) =
              (asrLoadModel)^[k] initASR := by simp [asrLoadModel, hm]
          rw [hstep]
          exact ⟨ih1, ih2⟩
        | none =>
          have hc := ih2 hm
          have hstep : asrLoadModel ((asrLoadModel)^[k] initASR) =
              { model := some ((asrLoadModel)^[k] initASR).constructions,
                constructions :=
                  ((asrLoadModel)^[k] initASR).constructions + 1,
                inferCalls := ((asrLoadModel)^[k] initASR).inferCalls } := by
            simp [asrLoadModel, hm]
          rw [hstep]
          exact ⟨by dsimp only; omega, fun hcon => Option.noConfusion hcon⟩
    intro n
    exact (hinv n).1
  · intro deOk s lang h hm
    by_cases hl : lang = "de"
    · subst hl
      cases hde : s.model_de with
      | some h2 => simp [ttsLoadModel, hde, hm]
      | none =>
        cases deOk with
        | true => simp [ttsLoadModel, hde, hm]
        | false => simp [ttsLoadModel, hde, hm]
    · simp [ttsLoadModel, hl, hm]
  · intro deOk s lang h hde
    by_cases hl : lang = "de"
    · subst hl
      simp [ttsLoadModel, hde]
    · cases hm : s.model with
      | some h2 => simp [ttsLoadModel, hl, hm, hde]
      | none => simp [ttsLoadModel, hl, hm, hde]

/-- C3 (witness): a cached base handle (id 7) and a cached German handle
(id 4) survive a further `load_model` call untouched. -/
theorem C3_idempotent_cached_acquire_witness :
    ((ttsLoadModel true
      { model := some 7, model_de := none, nextId := 8, baseCount := 1,
        deCount := 0, specAttempts := 0, inferCalls := 0 } "en").2).model
      = some 7 ∧
    ((ttsLoadModel false
      { model := none, model_de := some 4, nextId := 5, baseCount := 0,
        deCount := 1, specAttempts := 1, inferCalls := 0 } "de").2).model_de
      = some 4 :=
  ⟨C3_idempotent_cached_acquire.2.2.2.2.1 true _ "en" 7 rfl,
   C3_idempotent_cached_acquire.2.2.2.2.2 false _ "de" 4 rfl⟩

/-- C4: when the specialized German construction raises (`deOk = false`)
and the shared base model is available — cached, or constructed on the
spot — `load_model("de")` returns the base handle, aliases `_model_de` to
it, and every later `load_model("de")` (whatever the environment would
now do) returns that same handle without touching the state, hence
without re-entering the failed specialized construction path. -/
theorem C4_specialized_fallback_aliasing (s : TTSState)
    (hde : s.model_de = none) (b : Nat) (t : TTSState)
    (heq : ttsLoadModel false s "de" = (b, t)) :
    t.model = some b ∧ t.model_de = some b ∧
    ∀ deOk2, ttsLoadModel deOk2 t "de" = (b, t) := by
  have hcached : t.model_de = some b := by
    have h1 := ttsLoadModel_de_cached false s
    rw [heq] at h1
    exact h1
  have hbase : t.model = some b := by
    cases hm : s.model with
    | some c =>
      have hv : ttsLoadModel false s "de" =
          (c, { s with model_de := some c,
                       specAttempts := s.specAttempts + 1 }) := by
        simp [ttsLoadModel, hde, hm]
      rw [hv] at heq
      injection heq with hb ht
      subst hb
      subst ht
      exact hm
    | none =>
      have hv : ttsLoadModel false s "de" =
          (s.nextId,
           { s with model := some s.nextId, model_de := some s.nextId,
                    nextId := s.nextId + 1, baseCount := s.baseCount + 1,
                    specAttempts := s.specAttempts + 1 }) := by
        simp [ttsLoadModel, hde, hm]
      rw [hv] at heq
      injection heq with hb ht
      subst hb
      subst ht
      rfl
  exact ⟨hbase, hcached,
    fun deOk2 => ttsLoadModel_hit_de deOk2 t b hcached⟩

/-- C4 (witness): starting uncached, the failing German path constructs
the base model (handle 0), aliases the German entry to it, and the next
`load_model("de")` — even with a now-working German path — returns the
base handle with the state unchanged. -/
theorem C4_specialized_fallback_aliasing_witness :
    ttsLoadModel true
      { model := some 0, model_de := some 0, nextId := 1, baseCount := 1,
        deCount := 0, specAttempts := 1, inferCalls := 0 } "de" =
      (0, { model := some 0, model_de := some 0, nextId := 1,
            baseCount := 1, deCount := 0, specAttempts := 1,
            inferCalls := 0 }) :=
  (C4_specialized_fallback_aliasing initTTS rfl 0 _ (by decide)).2.2 true

/-!
## Claims about the Request Orchestrator (C7, C8, C10) and transcription
post-processing (C9)
-/

/-- Loading a model never performs an inference call. -/
theorem ttsLoadModel_inferCalls (deOk : Bool) (s : TTSState)
    (lang : String) :
    ((ttsLoadModel deOk s lang).2).inferCalls = s.inferCalls := by
  by_cases hl : lang = "de"
  · subst hl
    cases hde : s.model_de with
    | some h => simp [ttsLoadModel, hde]
    | none =>
      cases deOk with
      | true => simp [ttsLoadModel, hde]
      | false =>
        cases hm : s.model with
        | some b => simp [ttsLoadModel, hde, hm]
        | none => simp [ttsLoadModel, hde, hm]
  · cases hm : s.model with
    | some h => simp [ttsLoadModel, hl, hm]
    | none => simp [ttsLoadModel, hl, hm]

/-- C7: both endpoints reject empty input with a 400 before any model
acquisition — zero-length audio on `/transcribe`, empty or
whitespace-only text on `/synthesize` — returning the module state
untouched, so no construction and no inference happened. -/
theorem C7_empty_input_rejected_before_acquisition :
    (∀ whisper (audio : List Nat) language (s : ASRState),
       audio.length = 0 →
       transcribeEndpoint whisper audio language s =
         (.error ⟨400, "Empty audio file"⟩, s)) ∧
    (∀ deOk defaultRef oracle (text ref_text : String)
       (ref_audio : Option (List Nat)) language (speed : ℚ)
       (nfe_step : Nat) (s : TTSState),
       pyStrip text = "" →
       synthesizeEndpoint deOk defaultRef oracle text ref_text ref_audio
         language speed nfe_step s = (.error ⟨400, "Empty text"⟩, s)) := by
  constructor
  · intro whisper audio language s h
    simp [transcribeEndpoint, h]
  · intro deOk defaultRef oracle text ref_text ref_audio language speed
      nfe_step s h
    simp [synthesizeEndpoint, h]

/-- C7 (witness): the empty upload and a whitespace-only text are
rejected with the module states untouched. -/
theorem C7_empty_input_rejected_before_acquisition_witness :
    transcribeEndpoint (fun _ _ => ⟨[], "de", 0⟩) [] none initASR =
      (.error ⟨400, "Empty audio file"⟩, initASR) ∧
    synthesizeEndpoint true (fun _ => none)
        ⟨fun _ _ => "", fun _ _ _ _ _ => []⟩ " " "" none "de" 1 32
        initTTS =
      (.error ⟨400, "Empty text"⟩, initTTS) :=
  ⟨C7_empty_input_rejected_before_acquisition.1 _ [] none initASR rfl,
   C7_empty_input_rejected_before_acquisition.2 true _ _ " " "" none "de"
     1 32 initTTS (by decide)⟩

/-- C8: a cloning synthesis request with no uploaded reference and no
default asset for the language fails as a client-visible 400 carrying the
explanatory missing-reference message, returns no audio bytes (the result
is the error branch), and performs no inference; the endpoint returns
normally (the raised `ValueError` is caught), so the process survives. -/
theorem C8_missing_reference_reported (deOk : Bool)
    (defaultRef : String → Option (String × String)) (oracle : TTSOracle)
    (text ref_text language : String) (speed : ℚ) (nfe_step : Nat)
    (s : TTSState) (hnone : defaultRef language = none)
    (htext : pyStrip text ≠ "") :
    synthesizeEndpoint deOk defaultRef oracle text ref_text none language
        speed nfe_step s =
      (.error ⟨400, ttsMissingRefMsg⟩, (ttsLoadModel deOk s language).2) ∧
    ((ttsLoadModel deOk s language).2).inferCalls = s.inferCalls := by
  constructor
  · simp [synthesizeEndpoint, htext, ttsSynthesize, hnone]
  · exact ttsLoadModel_inferCalls deOk s language

/-- C8 (witness): with no default voice registered, a German cloning
request without reference audio yields the 400 with the explanatory
message. -/
theorem C8_missing_reference_reported_witness :
    synthesizeEndpoint true (fun _ => none)
        ⟨fun _ _ => "", fun _ _ _ _ _ => []⟩ "Hi" "" none "de" 1 32
        initTTS =
      (.error ⟨400, ttsMissingRefMsg⟩, (ttsLoadModel true initTTS "de").2) :=
  (C8_missing_reference_reported true (fun _ => none)
    ⟨fun _ _ => "", fun _ _ _ _ _ => []⟩ "Hi" "" "de" 1 32 initTTS rfl
    (by decide)).1

/-- C10: a present-but-zero-byte uploaded reference is normalised to "no
reference" by the endpoint, so the request behaves exactly like one with
no upload at all; in particular, when a default asset exists for the
language the request succeeds against it. -/
theorem C10_empty_upload_treated_as_absent :
    (∀ deOk defaultRef oracle (text ref_text : String) language (speed : ℚ)
       (nfe_step : Nat) (s : TTSState),
       synthesizeEndpoint deOk defaultRef oracle text ref_text (some [])
           language speed nfe_step s =
         synthesizeEndpoint deOk defaultRef oracle text ref_text none
           language speed nfe_step s) ∧
    (∀ deOk defaultRef oracle (text ref_text : String) language (speed : ℚ)
       (nfe_step : Nat) (s : TTSState) (p t : String),
       defaultRef language = some (p, t) → pyStrip text ≠ "" →
       (synthesizeEndpoint deOk defaultRef oracle text ref_text (some [])
           language speed nfe_step s).1 =
         .ok (oracle.minfer (.preset p)
           (if t = "" then oracle.mtranscribe (.preset p) language else t)
           text speed nfe_step)) := by
  constructor
  · intro deOk defaultRef oracle text ref_text language speed nfe_step s
    rfl
  · intro deOk defaultRef oracle text ref_text language speed nfe_step s
      p t hdef htext
    simp [synthesizeEndpoint, htext, ttsSynthesize, hdef, ttsInferStep]

/-- C10 (witness): a zero-byte upload with a registered default asset
succeeds and returns the synthesized bytes. -/
theorem C10_empty_upload_treated_as_absent_witness :
    (synthesizeEndpoint true (fun _ => some ("v.wav", "ref"))
        ⟨fun _ _ => "", fun _ _ _ _ _ => [1, 2]⟩ "Hi" "" (some []) "de" 1
        32 initTTS).1 = .ok [1, 2] := by
  rw [C10_empty_upload_treated_as_absent.2 true
    (fun _ => some ("v.wav", "ref")) ⟨fun _ _ => "", fun _ _ _ _ _ => [1, 2]⟩
    "Hi" "" "de" 1 32 initTTS "v.wav" "ref" rfl (by decide)]

/-- Round-half-even lands within half a unit of its argument. -/
theorem roundHalfEven_close (q : ℚ) : |(roundHalfEven q : ℚ) - q| ≤ 1/2 := by
  have h0 : (⌊q⌋ : ℚ) ≤ q := Int.floor_le q
  have h1 : q < ⌊q⌋ + 1 := Int.lt_floor_add_one q
  unfold roundHalfEven
  split_ifs with hlt hgt hev
  · rw [abs_le]
    constructor <;> linarith
  · push_cast
    rw [abs_le]
    constructor <;> linarith
  · rw [abs_le]
    constructor <;> linarith
  · push_cast
    rw [abs_le]
    constructor <;> linarith

/-- Rounding to 3 decimal places moves a rational by at most `1/2000`. -/
theorem pyRound3_close (q : ℚ) : |pyRound3 q - q| ≤ 1/2000 := by
  have h := roundHalfEven_close (q * 1000)
  unfold pyRound3
  rw [abs_le] at h ⊢
  constructor <;> [linarith [h.1]; linarith [h.2]]

/-- The spec's description of the returned transcription text:
"concatenates the produced text segments with single-space separation
after trimming each segment's surrounding whitespace". Stated from the
spec's words, for comparison with the code-side `asrTranscribe`. -/
def specSegmentsJoined (segments : List String) : String :=
  String.intercalate " " (segments.map pyStrip)

/-- C9: a successful transcription returns exactly the segment texts,
each stripped of surrounding whitespace, joined in segment order with
single spaces, together with the model-reported language; the returned
confidence is the model-reported probability rounded to 3 decimal places
— an integer multiple of `1/1000` within `1/2000` of the raw value. -/
theorem C9_transcription_text_and_rounding :
    (∀ whisper (audio : List Nat) language (s : ASRState),
       (asrTranscribe whisper audio language s).1.text =
         specSegmentsJoined (whisper audio language).segments ∧
       (asrTranscribe whisper audio language s).1.language =
         (whisper audio language).language ∧
       (asrTranscribe whisper audio language s).1.language_probability =
         pyRound3 (whisper audio language).language_probability) ∧
    (∀ q : ℚ, |pyRound3 q - q| ≤ 1/2000 ∧
       ∃ k : ℤ, pyRound3 q = (k : ℚ) / 1000) := by
  constructor
  · intro whisper audio language s
    exact ⟨rfl, rfl, rfl⟩
  · intro q
    exact ⟨pyRound3_close q, ⟨roundHalfEven (q * 1000), rfl⟩⟩
